import Mathlib

/-!
Verification of the TaskMaster task-store component (`taskmaster.py`).

The embedding below translates the behavioral core of the `TaskMaster`
class into Lean: the in-memory task list, the sort/filter/toggle/delete/
edit/add operations, and whole-document JSON persistence.  UI concerns
(widgets, dialogs, window management) are modelled only through their
observable effects on the store and on the user (e.g. whether a blocking
warning dialog was shown).
-/

namespace TaskMaster

/-- A task record, as stored in the `self.tasks` list of dicts:
`{"text": ..., "due": ..., "priority": ..., "completed": ...}`. -/
structure Task where
  text : String
  due : String
  priority : String
  completed : Bool
deriving DecidableEq, Repr

/-- The three-valued filter mode held in `self.filter_state`. -/
inductive FilterState where
  | all
  | active
  | completed
deriving DecidableEq, Repr

/-- The application state relevant to the task store:
`self.tasks`, `self.filter_state`, `self.sort_column`, `self.sort_reverse`.
`sort_column` is `none` initially (Python `None`). -/
structure AppState where
  tasks : List Task
  filter_state : FilterState
  sort_column : Option String
  sort_reverse : Bool
deriving DecidableEq, Repr

/-- The state set up in `TaskMaster.__init__` before `load_tasks` runs:
`self.tasks = []`, `self.filter_state = "all"`, `self.sort_column = None`,
`self.sort_reverse = False`. -/
def init_state : AppState :=
  { tasks := [], filter_state := .all, sort_column := none, sort_reverse := false }

/-- Python `str.strip()` (no argument): drop leading and trailing
whitespace characters. -/
def py_strip (s : String) : String :=
  ⟨((s.data.dropWhile Char.isWhitespace).reverse.dropWhile Char.isWhitespace).reverse⟩

/-- Python `str.lower()`: lowercase every character. -/
def py_lower (s : String) : String :=
  ⟨s.data.map Char.toLower⟩

/-- `priority_order.get(p, 0)` where
`priority_order = {"Low": 1, "Normal": 2, "High": 3}` (in `sort_tasks`). -/
def priority_order_get (p : String) : Nat :=
  if p = "Low" then 1
  else if p = "Normal" then 2
  else if p = "High" then 3
  else 0

/-- `str(x.get(key, ""))` on a task dict `x`: the three string fields are
returned as they are, the boolean field is rendered as Python renders it
(`str(False) = "False"`, `str(True) = "True"`), and a key that is not
present in the dict falls back to `""`. -/
def task_get_str (t : Task) (key : String) : String :=
  if key = "text" then t.text
  else if key = "due" then t.due
  else if key = "priority" then t.priority
  else if key = "completed" then (if t.completed then "True" else "False")
  else ""

/-- Python's `list.sort(key=f, reverse=rev)`: a stable sort on the key
values.  A stable ascending sort places `a` before `b` when `f a ≤ f b`;
a stable descending sort (`reverse=True` keeps equal keys in their
original relative order) places `a` before `b` when `f b ≤ f a`. -/
def pySortBy {κ : Type} [LinearOrder κ] (f : Task → κ) (rev : Bool) (l : List Task) :
    List Task :=
  if rev then List.insertionSort (fun a b => f b ≤ f a) l
  else List.insertionSort (fun a b => f a ≤ f b) l

/-- `TaskMaster.sort_tasks` (lines 212-224):
```
self.sort_reverse = not self.sort_reverse if self.sort_column == key else False
self.sort_column = key
if key == "priority":
    priority_order = {"Low": 1, "Normal": 2, "High": 3}
    self.tasks.sort(key=lambda x: priority_order.get(x.get(key, ""), 0), reverse=self.sort_reverse)
else:
    self.tasks.sort(key=lambda x: str(x.get(key, "")), reverse=self.sort_reverse)
```
-/
def sort_tasks (st : AppState) (key : String) : AppState :=
  let rev := if st.sort_column = some key then !st.sort_reverse else false
  let sorted :=
    if key = "priority" then
      pySortBy (fun x => priority_order_get (task_get_str x key)) rev st.tasks
    else
      pySortBy (fun x => (task_get_str x key).data) rev st.tasks
  { st with tasks := sorted, sort_column := some key, sort_reverse := rev }

/-- The `submit` handler inside `TaskMaster.open_task_window`
(lines 301-313).  Arguments mirror the entry widgets: the task text, the
three date comboboxes, the priority combobox, and the `simple` flag of
the window.  Returns the new task list together with a flag recording
whether the blocking "Task cannot be empty." warning dialog was shown
(in which case the operation was aborted and the store left unchanged).
-/
def submit (simple : Bool) (task_text month day year prio : String)
    (tasks : List Task) : List Task × Bool :=
  if py_strip task_text = "" then (tasks, true)
  else
    let due := if simple then "" else month ++ "-" ++ day ++ "-" ++ year
    let p := if simple then "" else prio
    (tasks ++ [{ text := task_text, due := due, priority := p, completed := false }], false)

/-- `TaskMaster.toggle_completion` (lines 333-338): a left-to-right scan
that flips `completed` on the first task whose `text` equals the key and
then `break`s; a silent no-op when nothing matches. -/
def toggle_completion : List Task → String → List Task
  | [], _ => []
  | t :: ts, key =>
    if t.text = key then { t with completed := !t.completed } :: ts
    else t :: toggle_completion ts key

/-- The store mutation in `TaskMaster.delete_selected_task` (line 345):
`self.tasks = [task for task in self.tasks if task['text'] != task_text]`. -/
def delete_selected_task (tasks : List Task) (task_text : String) : List Task :=
  tasks.filter (fun task => task.text != task_text)

/-- The first-match update loop inside `save_edit` (lines 454-460): the
first task whose `text` equals `old_text` gets its `text` replaced, and —
when the edit window was opened in detailed mode — its `due` rebuilt from
the three date comboboxes and its `priority` replaced; then `break`. -/
def edit_first (new_text old_text : String) (is_detailed : Bool)
    (month day year prio : String) : List Task → List Task
  | [] => []
  | t :: ts =>
    if t.text = old_text then
      (if is_detailed then
        { t with text := new_text, due := month ++ "-" ++ day ++ "-" ++ year,
                 priority := prio }
      else { t with text := new_text }) :: ts
    else t :: edit_first new_text old_text is_detailed month day year prio ts

/-- The `save_edit` handler inside `TaskMaster.edit_task` (lines 451-462):
`if new_text:` guards the whole body, so an empty `new_text` does nothing
at all — no dialog of any kind is shown.  The returned flag records
whether a blocking warning dialog was shown (it never is). -/
def save_edit (new_text old_text : String) (is_detailed : Bool)
    (month day year prio : String) (tasks : List Task) : List Task × Bool :=
  if new_text = "" then (tasks, false)
  else (edit_first new_text old_text is_detailed month day year prio tasks, false)

/-- Substring test on character lists, the embedding of Python's
`needle in hay` for strings (contiguous substring). -/
def char_list_contains (needle : List Char) : List Char → Bool
  | [] => needle.isEmpty
  | c :: cs => needle.isPrefixOf (c :: cs) || char_list_contains needle cs

/-- Python `needle in hay` on strings. -/
def str_contains (hay needle : String) : Bool :=
  char_list_contains needle.data hay.data

/-- The per-task visibility test in `TaskMaster.update_task_list`
(lines 472-478), with `search_text` already lowercased and trimmed:
```
if self.filter_state == "active" and task.get('completed'): continue
if self.filter_state == "completed" and not task.get('completed'): continue
if search_text and search_text not in task['text'].lower(): continue
```
-/
def task_visible (fs : FilterState) (search_text : String) (t : Task) : Bool :=
  if fs = FilterState.active ∧ t.completed = true then false
  else if fs = FilterState.completed ∧ t.completed = false then false
  else if search_text ≠ "" ∧ str_contains (py_lower t.text) search_text = false then false
  else true

/-- `TaskMaster.update_task_list` (lines 468-482): reads
`search_text = self.search_var.get().lower().strip()`, rebuilds the tree
view from the visible tasks, and leaves the application state untouched.
Returns the (unchanged) state together with the fresh view. -/
def update_task_list (st : AppState) (search : String) : AppState × List Task :=
  (st, st.tasks.filter (task_visible st.filter_state (py_strip (py_lower search))))

/-- A JSON document, the image of Python objects under `json.dump` /
the pre-image under `json.load`. -/
inductive Json where
  | null
  | bool (b : Bool)
  | num (n : Int)
  | str (s : String)
  | arr (elts : List Json)
  | obj (fields : List (String × Json))

/-- One task dict as `json.dump` renders it inside `save_tasks`:
an object with the keys `text`, `due`, `priority`, `completed`. -/
def taskToJson (t : Task) : Json :=
  .obj [("text", .str t.text), ("due", .str t.due),
        ("priority", .str t.priority), ("completed", .bool t.completed)]

/-- `TaskMaster.save_tasks` (lines 547-549) at the document level:
`json.dump(self.tasks, f)` writes the ordered task list as a JSON array
of task objects. -/
def save_tasks (tasks : List Task) : Json :=
  .arr (tasks.map taskToJson)

/-- Look a key up in a JSON object's field list (first match, as for a
Python dict built from distinct keys). -/
def jsonLookup (key : String) : List (String × Json) → Option Json
  | [] => none
  | (k, v) :: rest => if k = key then some v else jsonLookup key rest

/-- Read a JSON string value. -/
def jsonAsStr : Json → Option String
  | .str s => some s
  | _ => none

/-- Read a JSON boolean value. -/
def jsonAsBool : Json → Option Bool
  | .bool b => some b
  | _ => none

/-- Decode one task-shaped JSON object back into the task record that
`json.load` hands to `self.tasks`. -/
def taskOfJson : Json → Option Task
  | .obj fields =>
    match (jsonLookup "text" fields).bind jsonAsStr,
          (jsonLookup "due" fields).bind jsonAsStr,
          (jsonLookup "priority" fields).bind jsonAsStr,
          (jsonLookup "completed" fields).bind jsonAsBool with
    | some tx, some du, some pr, some co =>
      some { text := tx, due := du, priority := pr, completed := co }
    | _, _, _, _ => none
  | _ => none

/-- Decode a list of task-shaped JSON objects, failing if any element is
not task-shaped. -/
def tasksOfJson : List Json → Option (List Task)
  | [] => some []
  | j :: js =>
    match taskOfJson j, tasksOfJson js with
    | some t, some ts => some (t :: ts)
    | _, _ => none

/-- `json.load` in `TaskMaster.load_tasks` at the document level: the
persisted document must be an array of task-shaped objects to denote a
task store. -/
def load_tasks_doc : Json → Option (List Task)
  | .arr js => tasksOfJson js
  | _ => none

/-- The possible states of the `tasks.json` file at startup, as
`TaskMaster.load_tasks` distinguishes them: absent; present but not
well-formed JSON (so `json.load` raises `json.decoder.JSONDecodeError`);
or present and parsing as a JSON array of task objects — the only
well-formed stores the application itself ever writes — in which case
`json.load` yields the corresponding task records. -/
inductive FileContent where
  | missing
  | invalidJson
  | validJson (tasks : List Task)

/-- `TaskMaster.load_tasks` (lines 551-555):
```
if os.path.exists(TASKS_FILE):
    with open(TASKS_FILE, 'r') as f:
        self.tasks = json.load(f)
        self.update_task_list()
```
A missing file leaves the state as initialized; a `json.load` failure is
not caught anywhere on the startup path, so it escapes as an exception
(`Except.error`); a well-formed file replaces `self.tasks`. -/
def load_tasks (file : FileContent) (st : AppState) : Except String AppState :=
  match file with
  | .missing => .ok st
  | .invalidJson => .error "json.decoder.JSONDecodeError"
  | .validJson tasks => .ok { st with tasks := tasks }

/-! ### Helper lemmas about the stable sort -/

/-- An ascending `pySortBy` output is pairwise nondecreasing in the key. -/
lemma pairwise_pySortBy_asc {κ : Type} [LinearOrder κ] (f : Task → κ) (l : List Task) :
    List.Pairwise (fun a b => f a ≤ f b) (pySortBy f false l) := by
  haveI : IsTotal Task (fun a b => f a ≤ f b) := ⟨fun a b => le_total (f a) (f b)⟩
  haveI : IsTrans Task (fun a b => f a ≤ f b) := ⟨fun _ _ _ => le_trans⟩
  simpa [pySortBy] using List.sorted_insertionSort (fun a b => f a ≤ f b) l

/-- `pySortBy` permutes the input list. -/
lemma perm_pySortBy {κ : Type} [LinearOrder κ] (f : Task → κ) (rev : Bool) (l : List Task) :
    (pySortBy f rev l).Perm l := by
  unfold pySortBy
  split <;> exact List.perm_insertionSort _ _

/-- When the previous sort column differs from `"priority"`, sorting by
`"priority"` is the ascending sort on the priority ordinal. -/
lemma sort_tasks_priority_eq (st : AppState) (h : st.sort_column ≠ some "priority") :
    (sort_tasks st "priority").tasks
      = pySortBy (fun x => priority_order_get (task_get_str x "priority")) false st.tasks := by
  simp [sort_tasks, h]

/-- When the previous sort column differs from `"due"`, sorting by
`"due"` is the ascending sort on the raw due string (as a character
list, i.e. by code points, as Python compares strings). -/
lemma sort_tasks_due_eq (st : AppState) (h : st.sort_column ≠ some "due") :
    (sort_tasks st "due").tasks
      = pySortBy (fun x => (task_get_str x "due").data) false st.tasks := by
  simp [sort_tasks, h]

/-! ### Claim theorems -/

/-- C5: for every store state of `(sort_column, sort_reverse)` and every
key, invoking `sort_tasks` with the same key as the previous sort negates
the `sort_reverse` (descending) flag, while invoking it with a different
key sets the flag to `false` (ascending). -/
theorem sort_same_key_toggles_new_key_resets (st : AppState) (key : String) :
    (st.sort_column = some key → (sort_tasks st key).sort_reverse = !st.sort_reverse) ∧
    (st.sort_column ≠ some key → (sort_tasks st key).sort_reverse = false) := by
  constructor <;> intro h <;> simp [sort_tasks, h]

/-- Witness for C5: starting from a store last sorted ascending by
`"text"`, sorting by `"text"` again flips the flag, while sorting the
initial store (never sorted) by `"text"` leaves it ascending. -/
theorem sort_same_key_toggles_new_key_resets_witness :
    (sort_tasks ⟨[], .all, some "text", false⟩ "text").sort_reverse = !false
    ∧ (sort_tasks init_state "text").sort_reverse = false :=
  ⟨(sort_same_key_toggles_new_key_resets ⟨[], .all, some "text", false⟩ "text").1 rfl,
   (sort_same_key_toggles_new_key_resets init_state "text").2 (by simp [init_state])⟩

/-- C1 (counterexample): the claim as stated predicts that ascending
priority sort places a Low-priority task before an unknown/empty-priority
task (`Low < ... < unknown/empty`).  On the code, the empty priority has
ordinal 0 and sorts first: sorting `[Low-task, empty-task]` ascending
yields `[empty-task, Low-task]`, not `[Low-task, empty-task]`. -/
theorem priority_sort_unknown_first_cex :
    (sort_tasks ⟨[⟨"a", "", "Low", false⟩, ⟨"b", "", "", false⟩], .all, none, false⟩
        "priority").tasks
      = [⟨"b", "", "", false⟩, ⟨"a", "", "Low", false⟩]
    ∧ (sort_tasks ⟨[⟨"a", "", "Low", false⟩, ⟨"b", "", "", false⟩], .all, none, false⟩
        "priority").tasks
      ≠ [⟨"a", "", "Low", false⟩, ⟨"b", "", "", false⟩] := by
  exact ⟨by decide, by decide⟩

/-- C1 (amended): for every store whose previous sort column is not
`"priority"` (so the resulting sort is ascending, descending = false),
sorting by `"priority"` permutes the tasks into nondecreasing order of
the ordinal mapping Low = 1, Normal = 2, High = 3, unknown/empty = 0 —
hence unknown/empty < Low < Normal < High. -/
theorem priority_sort_ascending_order (st : AppState)
    (h : st.sort_column ≠ some "priority") :
    (sort_tasks st "priority").sort_reverse = false
    ∧ List.Pairwise
        (fun a b : Task => priority_order_get a.priority ≤ priority_order_get b.priority)
        (sort_tasks st "priority").tasks
    ∧ (sort_tasks st "priority").tasks.Perm st.tasks
    ∧ priority_order_get "Low" = 1 ∧ priority_order_get "Normal" = 2
    ∧ priority_order_get "High" = 3 ∧ priority_order_get "" = 0 := by
  refine ⟨by simp [sort_tasks, h], ?_, ?_, by decide, by decide, by decide, by decide⟩
  · rw [sort_tasks_priority_eq st h]
    exact pairwise_pySortBy_asc (fun x => priority_order_get (task_get_str x "priority")) st.tasks
  · rw [sort_tasks_priority_eq st h]
    exact perm_pySortBy _ _ _

/-- Witness for C1 (amended): the amended ordering theorem applied to a
concrete two-task store (High-priority task first, empty-priority task
second) whose previous sort column is `None`. -/
theorem priority_sort_ascending_order_witness :
    ((⟨[⟨"a", "", "High", false⟩, ⟨"b", "", "", false⟩], .all, none, false⟩ : AppState).sort_column
        ≠ some "priority")
    ∧ ((sort_tasks ⟨[⟨"a", "", "High", false⟩, ⟨"b", "", "", false⟩], .all, none, false⟩
          "priority").sort_reverse = false
      ∧ List.Pairwise
          (fun a b : Task => priority_order_get a.priority ≤ priority_order_get b.priority)
          (sort_tasks ⟨[⟨"a", "", "High", false⟩, ⟨"b", "", "", false⟩], .all, none, false⟩
            "priority").tasks
      ∧ (sort_tasks ⟨[⟨"a", "", "High", false⟩, ⟨"b", "", "", false⟩], .all, none, false⟩
          "priority").tasks.Perm
          (⟨[⟨"a", "", "High", false⟩, ⟨"b", "", "", false⟩], .all, none, false⟩ : AppState).tasks
      ∧ priority_order_get "Low" = 1 ∧ priority_order_get "Normal" = 2
      ∧ priority_order_get "High" = 3 ∧ priority_order_get "" = 0) :=
  ⟨by simp,
   priority_sort_ascending_order
     ⟨[⟨"a", "", "High", false⟩, ⟨"b", "", "", false⟩], .all, none, false⟩ (by simp)⟩

/-- C9: sorting by `"due"` ascending orders tasks by lexicographic
comparison of the raw due strings, not by calendar date.  In general the
ascending due-sort output is pairwise nondecreasing in the string order
and permutes the store; on the concrete store with due strings
`"02-01-2023"` and `"01-05-2024"`, the sort places `"01-05-2024"` first
even though it is the later calendar date. -/
theorem due_sort_lexicographic (st : AppState) :
    (st.sort_column ≠ some "due" →
      List.Pairwise (fun a b : Task => a.due ≤ b.due) (sort_tasks st "due").tasks
      ∧ (sort_tasks st "due").tasks.Perm st.tasks)
    ∧ (sort_tasks ⟨[⟨"a", "02-01-2023", "", false⟩, ⟨"b", "01-05-2024", "", false⟩],
          .all, none, false⟩ "due").tasks
      = [⟨"b", "01-05-2024", "", false⟩, ⟨"a", "02-01-2023", "", false⟩] := by
  constructor
  · intro h
    constructor
    · rw [sort_tasks_due_eq st h]
      exact (pairwise_pySortBy_asc (fun x => (task_get_str x "due").data) st.tasks).imp
        (fun hab => String.le_iff_toList_le.mpr hab)
    · rw [sort_tasks_due_eq st h]
      exact perm_pySortBy _ _ _
  · decide

/-- Witness for C9: the general part applied to a concrete one-task
store whose previous sort column is `None`. -/
theorem due_sort_lexicographic_witness :
    ((⟨[⟨"a", "b", "", false⟩], .all, none, false⟩ : AppState).sort_column ≠ some "due")
    ∧ (List.Pairwise (fun a b : Task => a.due ≤ b.due)
        (sort_tasks ⟨[⟨"a", "b", "", false⟩], .all, none, false⟩ "due").tasks
      ∧ (sort_tasks ⟨[⟨"a", "b", "", false⟩], .all, none, false⟩ "due").tasks.Perm
          (⟨[⟨"a", "b", "", false⟩], .all, none, false⟩ : AppState).tasks) :=
  ⟨by simp,
   (due_sort_lexicographic ⟨[⟨"a", "b", "", false⟩], .all, none, false⟩).1 (by simp)⟩

/-- C2 (counterexample): submitting empty new text in the edit dialog
does not surface any warning — `save_edit` returns with no dialog shown
(`false` flag); the store is indeed unchanged, but silently. -/
theorem edit_empty_text_silent_cex :
    (save_edit "" "A" false "" "" "" "" [⟨"A", "", "", false⟩]).2 ≠ true
    ∧ (save_edit "" "A" false "" "" "" "" [⟨"A", "", "", false⟩]).1 = [⟨"A", "", "", false⟩] :=
  ⟨by decide, by decide⟩

/-- C2 (amended): on add, task text that is empty after stripping
surfaces the blocking warning, the operation is aborted, and the store is
unchanged; on edit, submitting empty task text also aborts with the
store unchanged, but silently — no warning is shown. -/
theorem empty_text_add_warns_edit_silent
    (simple : Bool) (text month day year prio old_text : String) (is_detailed : Bool)
    (m2 d2 y2 p2 : String) (tasks : List Task) (h : py_strip text = "") :
    submit simple text month day year prio tasks = (tasks, true)
    ∧ save_edit "" old_text is_detailed m2 d2 y2 p2 tasks = (tasks, false) :=
  ⟨by simp [submit, h], by simp [save_edit]⟩

/-- Witness for C2 (amended): empty add text on an empty store, empty
edit text on a one-task store. -/
theorem empty_text_add_warns_edit_silent_witness :
    py_strip "" = ""
    ∧ (submit true "" "" "" "" "" [⟨"A", "", "", false⟩] = ([⟨"A", "", "", false⟩], true)
      ∧ save_edit "" "A" false "" "" "" "" [⟨"A", "", "", false⟩]
          = ([⟨"A", "", "", false⟩], false)) :=
  ⟨by decide,
   empty_text_add_warns_edit_silent true "" "" "" "" "" "A" false "" "" "" ""
     [⟨"A", "", "", false⟩] (by decide)⟩

/-- C3: adding a task whose text is non-empty after stripping appends
exactly one new task at the end with `completed = false` (store size
increases by exactly one); adding a task with whitespace-only text is
rejected and the store is unchanged. -/
theorem add_appends_one_or_rejects
    (simple : Bool) (text month day year prio : String) (tasks : List Task) :
    (py_strip text ≠ "" →
      ∃ t : Task,
        (submit simple text month day year prio tasks).1 = tasks ++ [t]
        ∧ t.completed = false
        ∧ (submit simple text month day year prio tasks).1.length = tasks.length + 1)
    ∧ (py_strip text = "" → (submit simple text month day year prio tasks).1 = tasks) := by
  constructor
  · intro h
    refine ⟨⟨text, if simple then "" else month ++ "-" ++ day ++ "-" ++ year,
             if simple then "" else prio, false⟩, ?_, rfl, ?_⟩
    · simp [submit, h]
    · simp [submit, h]
  · intro h
    simp [submit, h]

/-- Witness for C3: a non-blank add on the empty store appends one task;
a whitespace-only add on a one-task store is rejected. -/
theorem add_appends_one_or_rejects_witness :
    (py_strip "x" ≠ ""
      ∧ ∃ t : Task, (submit true "x" "" "" "" "" []).1 = [] ++ [t]
          ∧ t.completed = false
          ∧ (submit true "x" "" "" "" "" []).1.length = ([] : List Task).length + 1)
    ∧ (py_strip " " = ""
      ∧ (submit true " " "" "" "" "" [⟨"a", "", "", false⟩]).1 = [⟨"a", "", "", false⟩]) :=
  ⟨⟨by decide, (add_appends_one_or_rejects true "x" "" "" "" "" []).1 (by decide)⟩,
   ⟨by decide,
    (add_appends_one_or_rejects true " " "" "" "" "" [⟨"a", "", "", false⟩]).2 (by decide)⟩⟩

/-- The first-match behavior of the edit loop on a decomposed store:
everything before the first match is kept, the first match is updated,
everything after it is untouched. -/
lemma edit_first_append (new_text old_text : String) (is_detailed : Bool)
    (month day year prio : String) (pre : List Task) (t : Task) (post : List Task)
    (hpre : ∀ u ∈ pre, u.text ≠ old_text) (ht : t.text = old_text) :
    edit_first new_text old_text is_detailed month day year prio (pre ++ t :: post)
      = pre ++ (if is_detailed then
          { t with text := new_text, due := month ++ "-" ++ day ++ "-" ++ year,
                   priority := prio }
        else { t with text := new_text }) :: post := by
  induction pre with
  | nil => simp [edit_first, ht]
  | cons u us ih =>
    have hu : u.text ≠ old_text := hpre u (by simp)
    simp only [List.cons_append, edit_first, if_neg hu, List.cons.injEq, true_and]
    exact ih (fun v hv => hpre v (by simp [hv]))

/-- C10: edit rejects only the literal empty string as the new text.
For every whitespace-only but non-empty new text, the edit succeeds and
the first matching task's text becomes that whitespace-only string —
unlike add, which rejects any text that is empty after stripping — so
after such an edit the store can contain a whitespace-only task text. -/
theorem edit_accepts_whitespace_add_rejects
    (s old_text : String) (is_detailed : Bool) (month day year prio : String)
    (pre post : List Task) (t : Task) (tasks : List Task)
    (hs : s ≠ "") (hws : py_strip s = "")
    (hpre : ∀ u ∈ pre, u.text ≠ old_text) (ht : t.text = old_text) :
    (∃ t' : Task,
        (save_edit s old_text is_detailed month day year prio (pre ++ t :: post)).1
          = pre ++ t' :: post
        ∧ t'.text = s)
    ∧ (∀ simple : Bool, (submit simple s month day year prio tasks).1 = tasks)
    ∧ (save_edit "" old_text is_detailed month day year prio tasks).1 = tasks := by
  refine ⟨⟨(if is_detailed then
      { t with text := s, due := month ++ "-" ++ day ++ "-" ++ year, priority := prio }
    else { t with text := s }), ?_, ?_⟩, ?_, ?_⟩
  · simp only [save_edit, if_neg hs]
    exact edit_first_append s old_text is_detailed month day year prio pre t post hpre ht
  · cases is_detailed <;> simp
  · intro simple
    simp [submit, hws]
  · simp [save_edit]

/-- Witness for C10: editing the task `"A"` to the one-space text `" "`
succeeds and stores the whitespace-only text, while adding `" "` is
rejected; editing to the literal empty string is a no-op. -/
theorem edit_accepts_whitespace_add_rejects_witness :
    (" " ≠ "" ∧ py_strip " " = "" ∧ (⟨"A", "", "", false⟩ : Task).text = "A")
    ∧ ((∃ t' : Task,
          (save_edit " " "A" false "" "" "" "" ([] ++ (⟨"A", "", "", false⟩ : Task) :: [])).1
            = [] ++ t' :: []
          ∧ t'.text = " ")
      ∧ (∀ simple : Bool,
          (submit simple " " "" "" "" "" [⟨"q", "", "", false⟩]).1 = [⟨"q", "", "", false⟩])
      ∧ (save_edit "" "A" false "" "" "" "" [⟨"q", "", "", false⟩]).1
          = [⟨"q", "", "", false⟩]) :=
  ⟨⟨by decide, by decide, rfl⟩,
   edit_accepts_whitespace_add_rejects " " "A" false "" "" "" "" [] []
     ⟨"A", "", "", false⟩ [⟨"q", "", "", false⟩] (by decide) (by decide) (by simp) rfl⟩

/-- The first-match behavior of the toggle loop on a decomposed store:
everything before the first match is kept, the first match has its
`completed` flag flipped, everything after it — later matches included —
is untouched. -/
lemma toggle_completion_append (pre : List Task) (t : Task) (post : List Task)
    (key : String) (hpre : ∀ u ∈ pre, u.text ≠ key) (ht : t.text = key) :
    toggle_completion (pre ++ t :: post) key
      = pre ++ { t with completed := !t.completed } :: post := by
  induction pre with
  | nil => simp [toggle_completion, ht]
  | cons u us ih =>
    have hu : u.text ≠ key := hpre u (by simp)
    simp only [List.cons_append, toggle_completion, if_neg hu, List.cons.injEq, true_and]
    exact ih (fun v hv => hpre v (by simp [hv]))

/-- The toggle loop is a silent no-op when no task matches. -/
lemma toggle_completion_no_match (tasks : List Task) (key : String)
    (h : ∀ u ∈ tasks, u.text ≠ key) : toggle_completion tasks key = tasks := by
  induction tasks with
  | nil => rfl
  | cons u us ih =>
    have hu : u.text ≠ key := h u (by simp)
    simp only [toggle_completion, if_neg hu, List.cons.injEq, true_and]
    exact ih (fun v hv => h v (by simp [hv]))

/-- C4: for every store and every text key, delete removes ALL tasks
whose text equals the key, preserving the order of the rest, whereas
toggle flips `completed` on only the first matching task and leaves all
later matches unchanged; both are no-ops when no task matches. -/
theorem delete_all_matches_toggle_first_match (tasks : List Task) (key : String) :
    (∀ t ∈ delete_selected_task tasks key, t.text ≠ key)
    ∧ (delete_selected_task tasks key).Sublist tasks
    ∧ (∀ t ∈ tasks, t.text ≠ key → t ∈ delete_selected_task tasks key)
    ∧ (∀ (pre post : List Task) (t : Task), tasks = pre ++ t :: post →
        (∀ u ∈ pre, u.text ≠ key) → t.text = key →
        toggle_completion tasks key = pre ++ { t with completed := !t.completed } :: post)
    ∧ ((∀ t ∈ tasks, t.text ≠ key) →
        delete_selected_task tasks key = tasks ∧ toggle_completion tasks key = tasks) := by
  refine ⟨?_, List.filter_sublist tasks, ?_, ?_, ?_⟩
  · intro t htmem
    have := (List.mem_filter.mp htmem).2
    simpa using this
  · intro t htm hne
    exact List.mem_filter.mpr ⟨htm, by simpa using hne⟩
  · intro pre post t heq hpre ht
    subst heq
    exact toggle_completion_append pre t post key hpre ht
  · intro h
    constructor
    · exact List.filter_eq_self.mpr (fun a ha => by simpa using h a ha)
    · exact toggle_completion_no_match tasks key h

/-- Witness for C4: on the store with two `"Dup"` tasks, delete removes
both while toggle flips only the first; on a store with no match, both
are no-ops. -/
theorem delete_all_matches_toggle_first_match_witness :
    ((∀ u ∈ ([] : List Task), u.text ≠ "Dup")
      ∧ (⟨"Dup", "", "", false⟩ : Task).text = "Dup"
      ∧ (∀ u ∈ [(⟨"Other", "", "", false⟩ : Task)], u.text ≠ "Dup"))
    ∧ delete_selected_task [⟨"Dup", "", "", false⟩, ⟨"Dup", "2", "", false⟩] "Dup" = []
    ∧ toggle_completion [⟨"Dup", "", "", false⟩, ⟨"Dup", "2", "", false⟩] "Dup"
        = [⟨"Dup", "", "", true⟩, ⟨"Dup", "2", "", false⟩]
    ∧ (delete_selected_task [⟨"Other", "", "", false⟩] "Dup" = [⟨"Other", "", "", false⟩]
      ∧ toggle_completion [⟨"Other", "", "", false⟩] "Dup" = [⟨"Other", "", "", false⟩]) :=
  ⟨⟨by simp, rfl, by simp⟩,
   by decide,
   (delete_all_matches_toggle_first_match
       [⟨"Dup", "", "", false⟩, ⟨"Dup", "2", "", false⟩] "Dup").2.2.2.1
     [] [⟨"Dup", "2", "", false⟩] ⟨"Dup", "", "", false⟩ rfl (by simp) rfl,
   (delete_all_matches_toggle_first_match [⟨"Other", "", "", false⟩] "Dup").2.2.2.2 (by simp)⟩

/-- Visibility under the `active` filter factors as: not completed, and
visible under the `all` filter (i.e. passing the search test). -/
lemma task_visible_active_eq (s : String) (t : Task) :
    task_visible .active s t = (!t.completed && task_visible .all s t) := by
  cases hc : t.completed <;> simp [task_visible, hc]

/-- Visibility under the `completed` filter factors as: completed, and
visible under the `all` filter (i.e. passing the search test). -/
lemma task_visible_completed_eq (s : String) (t : Task) :
    task_visible .completed s t = (t.completed && task_visible .all s t) := by
  cases hc : t.completed <;> simp [task_visible, hc]

/-- C6: for every store state and every search string, the tasks shown
by the `active` view and the `completed` view are disjoint and their
union (as sets) is the tasks shown by the `all` view; producing a view
never mutates the application state. -/
theorem filter_views_partition (st : AppState) (search : String) :
    (∀ t : Task,
      (t ∈ (update_task_list { st with filter_state := .all } search).2
        ↔ t ∈ (update_task_list { st with filter_state := .active } search).2
          ∨ t ∈ (update_task_list { st with filter_state := .completed } search).2)
      ∧ ¬(t ∈ (update_task_list { st with filter_state := .active } search).2
          ∧ t ∈ (update_task_list { st with filter_state := .completed } search).2))
    ∧ (∀ fs : FilterState,
        (update_task_list { st with filter_state := fs } search).1
          = { st with filter_state := fs }) := by
  refine ⟨fun t => ?_, fun fs => rfl⟩
  cases hc : t.completed <;>
    cases hv : task_visible FilterState.all (py_strip (py_lower search)) t <;>
      simp [update_task_list, List.mem_filter, task_visible_active_eq,
            task_visible_completed_eq, hc, hv]

/-- Decoding inverts encoding on a single task object. -/
lemma taskOfJson_taskToJson (t : Task) : taskOfJson (taskToJson t) = some t := rfl

/-- C7: for every store whose tasks have the string fields `text`, `due`,
`priority` and the boolean field `completed`, deserializing the
serialized JSON document reproduces an equal ordered sequence of tasks —
same fields, same values, same order. -/
theorem serialize_roundtrip (tasks : List Task) :
    load_tasks_doc (save_tasks tasks) = some tasks := by
  induction tasks with
  | nil => rfl
  | cons t ts ih =>
    have ih' : tasksOfJson (ts.map taskToJson) = some ts := ih
    simp [save_tasks, load_tasks_doc, tasksOfJson, taskOfJson_taskToJson, ih']

/-- C8: at startup, a missing tasks file leaves the initial store empty
with no error, while a file with malformed JSON makes `load_tasks`
propagate the uncaught parse exception, aborting startup. -/
theorem load_missing_starts_empty_malformed_aborts :
    init_state.tasks = []
    ∧ load_tasks .missing init_state = .ok init_state
    ∧ load_tasks .invalidJson init_state = .error "json.decoder.JSONDecodeError" :=
  ⟨rfl, rfl, rfl⟩

end TaskMaster
